import Mathlib

/-!
Verification of `lustreapi.py` (guilbaults/python-lustreapi).

Shallow embedding of the Python module: pure helpers become Lean functions,
the native library (`liblustreapi.so`) is an external collaborator, so each
wrapper is modelled as a function of the raw native return code (and the
out-struct the native call filled in).  Python exceptions become an explicit
`pyError` sum carried in `Except`; `os.strerror` is an uninterpreted
parameter `strerror : Int → String`.  Machine-integer struct fields are
modelled as `Nat` (unsigned fields) and `Int` (signed fields); the values are
whatever the native layer wrote.
-/

/-- Python-level exceptions that the modelled code can raise:
`IOError(errno, msg)` (raised on negative native codes), `IndexError`
(ctypes out-of-bounds array indexing), and `ctypes.ArgumentError`
(argument marshalling failure). -/
inductive pyError where
  | ioError (errno : Int) (msg : String)
  | indexError
  | argumentError
deriving DecidableEq, Repr

/- ------------------------------------------------------------------
HSM flag codec (source lines 37-46, 107-134)
------------------------------------------------------------------ -/

/-- Flag table `HSM_FLAGS` (source lines 37-46).  The source stores the bit values as
hex strings and parses them with `int(flag[1], 16)` wherever they are used;
we keep the parsed numeric values, written as the same hex literals. -/
def HSM_FLAGS : List (String × Nat) :=
  [("NONE", 0x00000000),
   ("EXISTS", 0x00000001),
   ("DIRTY", 0x00000002),
   ("RELEASED", 0x00000004),
   ("ARCHIVED", 0x00000008),
   ("NORELEASE", 0x00000010),
   ("NOARCHIVE", 0x00000020),
   ("LOST", 0x00000040)]

/-- Native out-struct `hsm_user_state` (source lines 80-84): two `c_uint`
fields filled in by `llapi_hsm_state_get`. -/
structure hsm_user_state where
  hus_states : Nat
  hus_archive_id : Nat
deriving DecidableEq, Repr

/-- The decoding loop of `HSM_state.__init__` (source lines 113-116):
`for flag in HSM_FLAGS: if state & int(flag[1], 16): self.states.append(flag[0])`.
Appending under a filter in table order is filter-then-map. -/
def HSM_state_states (hus_states : Nat) : List String :=
  (HSM_FLAGS.filter fun fd => hus_states &&& fd.2 != 0).map Prod.fst

/-- The `HSM_state` object (source lines 107-125): `archive_id` and the
decoded `states` list. -/
structure HSM_state where
  archive_id : Nat
  states : List String
deriving DecidableEq, Repr

/-- Constructor `HSM_state.__init__` (source lines 110-116). -/
def HSM_state_mk (hus : hsm_user_state) : HSM_state :=
  { archive_id := hus.hus_archive_id, states := HSM_state_states hus.hus_states }

/-- Summary `HSM_state.__str__` (source lines 118-125): with more than one decoded
flag, `"Archive id:%i" % archive_id` followed by `"\nStates: "` and the
space-joined flag names; otherwise `"No HSM state"`. -/
def HSM_state_str (s : HSM_state) : String :=
  if 1 < s.states.length then
    "Archive id:" ++ toString s.archive_id ++ "\nStates: " ++ String.intercalate " " s.states
  else
    "No HSM state"

/-- Encoder `hsm_state_from_flags` (source lines 128-134): nested loops, the outer
over the flag table, the inner over the input list, adding the value of a
table entry once per matching element of the input list. -/
def hsm_state_from_flags (flags : List String) : Nat :=
  HSM_FLAGS.foldl
    (fun state fd => flags.foldl (fun s f => if fd.1 = f then s + fd.2 else s) state)
    0

/- ------------------------------------------------------------------
Stripe model (source lines 58-77, 153-226)
------------------------------------------------------------------ -/

/-- Native record `lov_user_ost_data_v1` (source lines 58-64): one native placement
record. -/
structure lov_user_ost_data_v1 where
  l_object_id : Nat
  l_object_gr : Nat
  l_ost_gen : Nat
  l_ost_idx : Nat
deriving DecidableEq, Repr

/-- Native struct `lov_user_md_v1` (source lines 67-77).  `lmm_stripe_count` and
`lmm_stripe_offset` are signed (`c_short`), the rest unsigned.  The
`lmm_objects` buffer holds 2000 placement records; we model it as the list
of records the native layer left in the buffer (length 2000). -/
structure lov_user_md_v1 where
  lmm_magic : Nat
  lmm_pattern : Nat
  lmm_object_id : Nat
  lmm_object_gr : Nat
  lmm_stripe_size : Nat
  lmm_stripe_count : Int
  lmm_stripe_offset : Int
  lmm_objects : List lov_user_ost_data_v1
deriving DecidableEq, Repr

/-- The mutable attributes of `stripeObj` (source lines 153-186).  The
`lovdata` attribute (a raw ctypes buffer kept only as a handle) is not
modelled. -/
structure stripeObj where
  stripecount : Int
  stripesize : Nat
  stripeoffset : Int
  ostobjects : List lov_user_ost_data_v1
deriving DecidableEq, Repr

/-- Defaults set by `stripeObj.__init__` (source lines 167-172). -/
def stripeObj_init : stripeObj :=
  { stripecount := -1, stripesize := 0, stripeoffset := -1, ostobjects := [] }

/-- Predicate `stripeObj.isstriped` (source lines 182-186). -/
def stripeObj.isstriped (s : stripeObj) : Bool :=
  if 1 < s.stripecount ∨ s.stripecount = -1 then true else false

/-- The copy loop of `getstripe` (source lines 216-217):
`for i in range(0, lovdata.lmm_stripe_count): ostobjects.append(lovdata.lmm_objects[i])`.
It takes the first `count` records in order; indexing past the end of the
ctypes array raises `IndexError` (which happens exactly when
`count > length`, at the first out-of-range index). -/
def copyObjects : List lov_user_ost_data_v1 → Nat → Except pyError (List lov_user_ost_data_v1)
  | _, 0 => .ok []
  | [], _ + 1 => .error .indexError
  | o :: rest, n + 1 =>
    match copyObjects rest n with
    | .ok objs => .ok (o :: objs)
    | .error e => .error e

/-- Wrapper `getstripe` (source lines 189-226), as a function of the raw native
return code `err` of `llapi_file_get_stripe` and the out-struct `lovdata`
the native call filled in.  (The filename is forwarded opaquely to the
native call and does not occur in the post-call logic.)  A Python
`range(0, n)` with negative `n` is empty, hence `Int.toNat`. -/
def getstripe (strerror : Int → String) (err : Int) (lovdata : lov_user_md_v1) :
    Except pyError stripeObj :=
  if err < 0 ∧ err ≠ -61 then
    .error (.ioError (-err) (strerror (-err)))
  else if err = -61 then
    -- workaround for Whamcloud LU-541: filesystem defaults
    .ok { stripecount := 0, stripesize := 0, stripeoffset := -1, ostobjects := [] }
  else
    match copyObjects lovdata.lmm_objects lovdata.lmm_stripe_count.toNat with
    | .error e => .error e
    | .ok objs =>
      .ok { stripecount := lovdata.lmm_stripe_count,
            stripesize := lovdata.lmm_stripe_size,
            -- lmm_stripe_offset is not trusted: derived from the first entry
            stripeoffset :=
              match objs with
              | [] => -1
              | o :: _ => (o.l_ost_idx : Int),
            ostobjects := objs }

/- ------------------------------------------------------------------
setstripe (source lines 229-282) and the stderr capture it acquires
(source lines 354-379)
------------------------------------------------------------------ -/

/-- A Python value as seen by ctypes argument marshalling: the modelled code
passes either `int`s or `str`s at the native boundary. -/
inductive PyVal where
  | int (n : Int)
  | str (s : String)
deriving DecidableEq, Repr

/-- ctypes marshalling for a parameter declared `c_int`: accepts a Python
`int`, rejects a `str` (raising `ctypes.ArgumentError` at the call). -/
def c_int_from_param : PyVal → Option Int
  | .int n => some n
  | .str _ => none

/-- Constant `flags = os.O_CREAT` (source line 257); octal 100 = 64 on Linux. -/
def setstripe_flags : PyVal := .int 64

/-- Constant `mode` (source line 258): the Python string "0700", not an
integer. -/
def setstripe_mode : PyVal := .str "0700"

/-- Constant `stripe_pattern = 0` (source line 260). -/
def setstripe_stripe_pattern : Int := 0

/-- Target of descriptor 2 of the process (the diagnostic stream):
either its pre-acquire target or the write end of the capture pipe that
`captureStderr.__init__` (source lines 356-360) dup2s over it. -/
inductive FdTarget where
  | original
  | pipeWrite
deriving DecidableEq, Repr

/-- Observable outcome of one `setstripe` call: the Python-level result,
where descriptor 2 points when control leaves `setstripe`, how many times
`captureStderr.stopCapture` ran, whether the native
`llapi_file_open` was actually invoked, and which descriptors returned by
the native call were closed. -/
structure SetstripeOutcome where
  result : Except pyError Int
  stderrAtExit : FdTarget
  stopCaptureRuns : Nat
  nativeCalled : Bool
  closedFds : List Int
deriving Repr

/-- Wrapper `setstripe` (source lines 229-282), as a function of the raw value
`nativeRet` that `llapi_file_open` would return if invoked.  Execution
order as in the source: resolve the stripe parameters (a passed
`stripeobj` overrides the explicit arguments), acquire the stderr capture
(descriptor 2 now points at the pipe), then call
`lustre.llapi_file_open(filename, flags, mode, stripesize, stripeoffset,
stripecount, stripe_pattern)`.  ctypes marshals the arguments against the
declared argtypes (source lines 145-147) left to right; `filename` is
forwarded opaquely (a byte-string marshals against `c_char_p`) and `flags`
is an `int`, but `mode` is declared `c_int`, so its marshalling decides
whether the native call happens at all.  If marshalling fails,
`ctypes.ArgumentError` propagates out of `setstripe`: `readData` and
`stopCapture` (source lines 274-275) never run and descriptor 2 is left
pointing at the pipe.  If the native call returns `fd`, the capture is
drained and released, and then `fd` is translated: negative raises
`IOError(-fd, strerror(-fd))`, otherwise `os.close(fd)` runs and 0 is
returned. -/
def setstripe_run (nativeRet : Int) (strerror : Int → String)
    (stripesize stripeoffset stripecount : Int) (stripeobj : Option stripeObj) :
    SetstripeOutcome :=
  let _ssize : Int := match stripeobj with
    | some so => (so.stripesize : Int)
    | none => stripesize
  let _soff : Int := match stripeobj with
    | some so => so.stripeoffset
    | none => stripeoffset
  let _scount : Int := match stripeobj with
    | some so => so.stripecount
    | none => stripecount
  -- message = captureStderr(): descriptor 2 now points at the pipe
  match c_int_from_param setstripe_mode with
  | none =>
    -- ctypes.ArgumentError before the native call; no cleanup runs
    { result := .error .argumentError, stderrAtExit := .pipeWrite,
      stopCaptureRuns := 0, nativeCalled := false, closedFds := [] }
  | some _ =>
    let fd := nativeRet
    -- message.readData(); message.stopCapture()
    if fd < 0 then
      { result := .error (.ioError (-fd) (strerror (-fd))), stderrAtExit := .original,
        stopCaptureRuns := 1, nativeCalled := true, closedFds := [] }
    else
      { result := .ok 0, stderrAtExit := .original,
        stopCaptureRuns := 1, nativeCalled := true, closedFds := [fd] }

/- ------------------------------------------------------------------
FID resolution and the HSM wrappers (source lines 87-104, 285-318)
------------------------------------------------------------------ -/

/-- Native out-struct `lu_fid` (source lines 87-92). -/
structure lu_fid where
  f_seq : Nat
  f_oid : Nat
  f_ver : Nat
deriving DecidableEq, Repr

/-- The `Fid` value type (source lines 95-104). -/
structure Fid where
  seq : Nat
  oid : Nat
  ver : Nat
deriving DecidableEq, Repr

/-- Wrapper `path2fid` (source lines 285-294), as a function of the raw native
return code and the out-struct `llapi_path2fid` filled in. -/
def path2fid (strerror : Int → String) (err : Int) (lufid : lu_fid) :
    Except pyError Fid :=
  if err < 0 then
    .error (.ioError (-err) (strerror (-err)))
  else
    .ok { seq := lufid.f_seq, oid := lufid.f_oid, ver := lufid.f_ver }

/-- Wrapper `get_hsm_state` (source lines 297-305), as a function of the raw native
return code and the out-struct `llapi_hsm_state_get` filled in. -/
def get_hsm_state (strerror : Int → String) (err : Int) (hus : hsm_user_state) :
    Except pyError HSM_state :=
  if err < 0 then
    .error (.ioError (-err) (strerror (-err)))
  else
    .ok (HSM_state_mk hus)

/-- Wrapper `set_hsm_state` (source lines 308-317), as a function of the raw native
return code.  The native call receives `hsm_state_from_flags setmask` and
`hsm_state_from_flags clearmask`; they do not affect the Python-level
result, which only translates the return code. -/
def set_hsm_state (strerror : Int → String) (setmask clearmask : List String)
    (archive_id : Nat) (err : Int) : Except pyError Unit :=
  let _set_arg := hsm_state_from_flags setmask
  let _clear_arg := hsm_state_from_flags clearmask
  let _archive_arg := archive_id
  if err < 0 then
    .error (.ioError (-err) (strerror (-err)))
  else
    .ok ()

/- ------------------------------------------------------------------
Statement-side auxiliary definitions
------------------------------------------------------------------ -/

/-- Enumerates the subsets of the seven flag names with nonzero bit values,
in table order: each selector `bi` says whether the corresponding name is in
the subset.  Used to quantify over subsets of the flag table. -/
def selFlags (b1 b2 b3 b4 b5 b6 b7 : Bool) : List String :=
  (if b1 then ["EXISTS"] else []) ++ (if b2 then ["DIRTY"] else []) ++
  (if b3 then ["RELEASED"] else []) ++ (if b4 then ["ARCHIVED"] else []) ++
  (if b5 then ["NORELEASE"] else []) ++ (if b6 then ["NOARCHIVE"] else []) ++
  (if b7 then ["LOST"] else [])

/-- Sample native stripe reply: a full 2000-record buffer with
`lmm_stripe_count = 2`, every record placed on target index 7. -/
def lov_sample : lov_user_md_v1 :=
  { lmm_magic := 0xbd00bd0, lmm_pattern := 0, lmm_object_id := 0, lmm_object_gr := 0,
    lmm_stripe_size := 1048576, lmm_stripe_count := 2, lmm_stripe_offset := 0,
    lmm_objects :=
      List.replicate 2000
        { l_object_id := 9, l_object_gr := 0, l_ost_gen := 0, l_ost_idx := 7 } }

/- ------------------------------------------------------------------
Helper lemmas
------------------------------------------------------------------ -/

/-- Folding the inner loop of `hsm_state_from_flags` over an input list adds
the bit value once per occurrence of the name in the list. -/
theorem foldl_count (n : String) (v : Nat) (fs : List String) (s : Nat) :
    fs.foldl (fun acc f => if n = f then acc + v else acc) s = s + v * fs.count n := by
  induction fs generalizing s with
  | nil => simp
  | cons f fs ih =>
    rw [List.foldl_cons, ih, List.count_cons]
    by_cases h : n = f
    · simp only [h, if_pos rfl, beq_self_eq_true, if_true]
      ring
    · have hb : (f == n) = false := by
        simp only [beq_eq_false_iff_ne]
        exact fun hh => h hh.symm
      simp [h, hb]

/-- Unfolded form of the encoder: the resulting mask is the weighted sum of
the occurrence counts of the seven nonzero flag names (the `NONE` entry
contributes `0` per occurrence). -/
theorem hsm_state_from_flags_eq_counts (flags : List String) :
    hsm_state_from_flags flags =
      flags.count "EXISTS" + 2 * flags.count "DIRTY" + 4 * flags.count "RELEASED" +
      8 * flags.count "ARCHIVED" + 16 * flags.count "NORELEASE" +
      32 * flags.count "NOARCHIVE" + 64 * flags.count "LOST" := by
  simp only [hsm_state_from_flags, HSM_FLAGS, List.foldl_cons, List.foldl_nil]
  rw [foldl_count, foldl_count, foldl_count, foldl_count, foldl_count, foldl_count,
    foldl_count, foldl_count]
  ring

/-- No string starting with the summary header can be the no-state text. -/
theorem archive_str_ne (x y z : String) :
    "Archive id:" ++ x ++ y ++ z ≠ "No HSM state" := by
  intro h
  have h3 : ("Archive id:" ++ x ++ y ++ z).data.head? = some 'A' := by
    cases x with | mk lx =>
    cases y with | mk ly =>
    cases z with | mk lz =>
    rfl
  rw [h] at h3
  exact absurd h3 (by decide)

/-- The copy loop succeeds and returns the first `count` records whenever
`count` does not exceed the buffer length. -/
theorem copyObjects_eq_take (objs : List lov_user_ost_data_v1) (count : Nat)
    (h : count ≤ objs.length) : copyObjects objs count = .ok (objs.take count) := by
  induction objs generalizing count with
  | nil =>
    have hc : count = 0 := Nat.le_zero.mp h
    subst hc
    rfl
  | cons o rest ih =>
    cases count with
    | zero => rfl
    | succ n =>
      have hn : n ≤ rest.length := Nat.succ_le_succ_iff.mp h
      simp [copyObjects, ih n hn, List.take_succ_cons]

/- ------------------------------------------------------------------
C1: HSM flag codec round-trip
------------------------------------------------------------------ -/

/-- C1 counterexample.  The claim states `decode(encode(F)) == F` for every
subset `F` of the flag table and `encode(decode(M)) == M` for every 32-bit
mask `M`.  Both halves fail: `{NONE}` is a subset of the flag table, but its
encoding is `0` and decoding `0` yields the empty set (the `NONE` bit test
`M & 0 != 0` is always false); and the mask `128` has no flag bit, so it
decodes to the empty set, which encodes back to `0`, not `128`. -/
theorem hsm_roundtrip_cex :
    "NONE" ∈ ["NONE"] ∧
    "NONE" ∉ HSM_state_states (hsm_state_from_flags ["NONE"]) ∧
    hsm_state_from_flags (HSM_state_states 128) ≠ 128 := by
  decide

/-- C1 (amended): for every subset `F` of the flag table that does not
contain `NONE`, decoding the mask obtained by encoding `F` yields exactly
`F`; and for every mask `M` whose set bits all lie in the flag table
(`M < 0x80`), encoding the flag set obtained by decoding `M` yields `M`. -/
theorem hsm_roundtrip_amended :
    (∀ b1 b2 b3 b4 b5 b6 b7 : Bool,
      HSM_state_states (hsm_state_from_flags (selFlags b1 b2 b3 b4 b5 b6 b7)) =
        selFlags b1 b2 b3 b4 b5 b6 b7) ∧
    (∀ M : Nat, M < 128 → hsm_state_from_flags (HSM_state_states M) = M) := by
  constructor
  · decide
  · decide

/-- C1 witness: the amended round-trip evaluated at the subset
`{EXISTS, ARCHIVED}` and at the mask `73 = 0x49`. -/
theorem hsm_roundtrip_amended_witness :
    HSM_state_states (hsm_state_from_flags (selFlags true false false true false false false)) =
      selFlags true false false true false false false ∧
    hsm_state_from_flags (HSM_state_states 73) = 73 :=
  ⟨hsm_roundtrip_amended.1 true false false true false false false,
   hsm_roundtrip_amended.2 73 (by decide)⟩

/- ------------------------------------------------------------------
C3: encoder duplicate handling and unknown names
------------------------------------------------------------------ -/

/-- C3 counterexample.  The claim states that a flag name occurring several
times in the input is summed exactly once, so
`hsm_state_from_flags(["EXISTS", "EXISTS"])` would have to equal
`hsm_state_from_flags(["EXISTS"]) = 1`; the nested loops instead add the bit
value once per occurrence and produce `2`. -/
theorem hsm_encode_dup_cex :
    hsm_state_from_flags ["EXISTS", "EXISTS"] ≠ hsm_state_from_flags ["EXISTS"] ∧
    hsm_state_from_flags ["EXISTS", "EXISTS"] = 2 ∧
    hsm_state_from_flags ["EXISTS"] = 1 := by
  decide

/-- C3 (amended): encoding sums each matched table entry once per
occurrence of its name in the input (duplicates are counted multiply), and
names not present in the flag table contribute nothing and raise no
error. -/
theorem hsm_encode_count (flags : List String) :
    hsm_state_from_flags flags =
      flags.count "EXISTS" + 2 * flags.count "DIRTY" + 4 * flags.count "RELEASED" +
      8 * flags.count "ARCHIVED" + 16 * flags.count "NORELEASE" +
      32 * flags.count "NOARCHIVE" + 64 * flags.count "LOST" ∧
    ∀ x : String, x ∉ HSM_FLAGS.map Prod.fst →
      hsm_state_from_flags (x :: flags) = hsm_state_from_flags flags := by
  refine ⟨hsm_state_from_flags_eq_counts flags, ?_⟩
  intro x hx
  have hc : ∀ n : String, n ∈ HSM_FLAGS.map Prod.fst →
      (x :: flags).count n = flags.count n := by
    intro n hn
    rw [List.count_cons]
    have hne : (x == n) = false := by
      rw [beq_eq_false_iff_ne]
      intro he
      subst he
      exact hx hn
    simp [hne]
  rw [hsm_state_from_flags_eq_counts, hsm_state_from_flags_eq_counts,
    hc "EXISTS" (by decide), hc "DIRTY" (by decide), hc "RELEASED" (by decide),
    hc "ARCHIVED" (by decide), hc "NORELEASE" (by decide),
    hc "NOARCHIVE" (by decide), hc "LOST" (by decide)]

/-- C3 witness: a name outside the flag table is silently ignored. -/
theorem hsm_encode_count_witness :
    hsm_state_from_flags ("BOGUS" :: ["EXISTS"]) = hsm_state_from_flags ["EXISTS"] :=
  (hsm_encode_count ["EXISTS"]).2 "BOGUS" (by decide)

/- ------------------------------------------------------------------
C4: getstripe defect workaround and error translation
------------------------------------------------------------------ -/

/-- C4: when the native get-stripe call returns the documented defect code
`-61`, `getstripe` does not fail and returns the defaults layout
(`stripe_count = 0`, `stripe_size = 0`, `stripe_offset = -1`, no
placements); for every other negative return code `err`, it raises
`IOError(-err, strerror(-err))`. -/
theorem getstripe_error_paths (strerror : Int → String) (err : Int)
    (lovdata : lov_user_md_v1) :
    (err = -61 → getstripe strerror err lovdata =
      .ok { stripecount := 0, stripesize := 0, stripeoffset := -1, ostobjects := [] }) ∧
    (err < 0 → err ≠ -61 →
      getstripe strerror err lovdata = .error (.ioError (-err) (strerror (-err)))) := by
  constructor
  · intro h
    subst h
    rw [getstripe, if_neg (by omega), if_pos rfl]
  · intro h1 h2
    rw [getstripe, if_pos ⟨h1, h2⟩]

/-- C4 witness: the two branches evaluated at `-61` and at `-2`. -/
theorem getstripe_error_paths_witness :
    getstripe (fun _ => "No such file or directory") (-61) ⟨0, 0, 0, 0, 0, 0, 0, []⟩ =
      .ok { stripecount := 0, stripesize := 0, stripeoffset := -1, ostobjects := [] } ∧
    getstripe (fun _ => "No such file or directory") (-2) ⟨0, 0, 0, 0, 0, 0, 0, []⟩ =
      .error (.ioError 2 "No such file or directory") :=
  ⟨(getstripe_error_paths (fun _ => "No such file or directory") (-61)
      ⟨0, 0, 0, 0, 0, 0, 0, []⟩).1 rfl,
   (getstripe_error_paths (fun _ => "No such file or directory") (-2)
      ⟨0, 0, 0, 0, 0, 0, 0, []⟩).2 (by decide) (by decide)⟩

/- ------------------------------------------------------------------
C5: getstripe success path
------------------------------------------------------------------ -/

/-- C5: on a non-negative native return, `getstripe` copies exactly the
native-reported `lmm_stripe_count` leading placement records (never more,
despite the 2000-record buffer), reports that count and the native stripe
size, and derives the offset: the `l_ost_idx` of the first placement when
there is one, `-1` otherwise. -/
theorem getstripe_success (strerror : Int → String) (err : Int) (lov : lov_user_md_v1)
    (herr : 0 ≤ err) (hlen : lov.lmm_objects.length = 2000)
    (hc0 : 0 ≤ lov.lmm_stripe_count) (hc : lov.lmm_stripe_count ≤ 2000) :
    ∃ s, getstripe strerror err lov = .ok s ∧
      s.ostobjects = lov.lmm_objects.take lov.lmm_stripe_count.toNat ∧
      s.ostobjects.length = lov.lmm_stripe_count.toNat ∧
      s.stripecount = lov.lmm_stripe_count ∧
      s.stripesize = lov.lmm_stripe_size ∧
      (∀ o, s.ostobjects.head? = some o → s.stripeoffset = (o.l_ost_idx : Int)) ∧
      (s.ostobjects = [] → s.stripeoffset = (-1 : Int)) := by
  have h1 : ¬(err < 0 ∧ err ≠ -61) := by
    rintro ⟨hlt, _⟩
    omega
  have h2 : ¬(err = -61) := by omega
  have htake : lov.lmm_stripe_count.toNat ≤ lov.lmm_objects.length := by
    rw [hlen]
    omega
  rw [getstripe, if_neg h1, if_neg h2, copyObjects_eq_take _ _ htake]
  refine ⟨_, rfl, rfl, ?_, rfl, rfl, ?_, ?_⟩
  · rw [List.length_take, hlen]
    omega
  · intro o ho
    cases hcase : lov.lmm_objects.take lov.lmm_stripe_count.toNat with
    | nil =>
      rw [hcase] at ho
      simp at ho
    | cons a rest =>
      rw [hcase] at ho
      simp only [List.head?_cons, Option.some.injEq] at ho
      subst ho
      simp [hcase]
  · intro hnil
    have hnil2 : List.take lov.lmm_stripe_count.toNat lov.lmm_objects = [] := hnil
    rw [hnil2]

/-- C5 witness: the success path evaluated on `lov_sample` (2000-record
buffer, native count 2): exactly two placements are copied and the offset
is the target index 7 of the first one. -/
theorem getstripe_success_witness :
    ∃ s, getstripe (fun _ => "") 0 lov_sample = .ok s ∧
      s.ostobjects = lov_sample.lmm_objects.take lov_sample.lmm_stripe_count.toNat ∧
      s.ostobjects.length = lov_sample.lmm_stripe_count.toNat ∧
      s.stripecount = lov_sample.lmm_stripe_count ∧
      s.stripesize = lov_sample.lmm_stripe_size ∧
      (∀ o, s.ostobjects.head? = some o → s.stripeoffset = (o.l_ost_idx : Int)) ∧
      (s.ostobjects = [] → s.stripeoffset = (-1 : Int)) :=
  getstripe_success (fun _ => "") 0 lov_sample (by decide)
    (by show (List.replicate 2000 _).length = 2000
        rw [List.length_replicate])
    (by decide) (by decide)

/- ------------------------------------------------------------------
C2, C6, C7: setstripe and its native-boundary defect
------------------------------------------------------------------ -/

/-- C2 (code defect): `setstripe` never invokes the native
create-with-striping call at all.  The local `mode` is the Python string
"0700" while the third `llapi_file_open` parameter is declared `c_int`
(source lines 145-147), so ctypes argument marshalling fails and
`ctypes.ArgumentError` propagates; on the default-argument call
(`stripesize=0, stripeoffset=-1, stripecount=1`, no stripe object) the
native layer is never reached.  The fixed `stripe_pattern = 0` of the claim
is indeed what the code would pass. -/
theorem setstripe_mode_marshal_bug :
    setstripe_mode = PyVal.str "0700" ∧
    c_int_from_param setstripe_mode = none ∧
    setstripe_stripe_pattern = 0 ∧
    (setstripe_run 0 (fun _ => "") 0 (-1) 1 none).nativeCalled = false ∧
    (setstripe_run 0 (fun _ => "") 0 (-1) 1 none).result = .error .argumentError :=
  ⟨rfl, rfl, rfl, rfl, rfl⟩

/-- C6 (code defect): on a call with explicit parameters
(`stripesize=1048576, stripecount=4`) and a native layer that would return
the descriptor `5`, `setstripe` still fails with `ctypes.ArgumentError`
raised while marshalling `mode`, the native call is never made, and no
descriptor is ever closed — so for `set_stripe` no native return code is
ever translated and no handle released. -/
theorem setstripe_no_translation :
    (setstripe_run 5 (fun _ => "") 1048576 (-1) 4 none).result = .error .argumentError ∧
    (setstripe_run 5 (fun _ => "") 1048576 (-1) 4 none).nativeCalled = false ∧
    (setstripe_run 5 (fun _ => "") 1048576 (-1) 4 none).closedFds = [] :=
  ⟨rfl, rfl, rfl⟩

/-- C7 (code defect): `setstripe` acquires the stderr capture and then
raises `ctypes.ArgumentError` at the native call site; there is no
try/finally, so `stopCapture` runs zero times (not exactly once) and at
exit descriptor 2 still points at the pipe, not at its pre-acquire
target. -/
theorem setstripe_capture_leak :
    (setstripe_run 0 (fun _ => "") 0 (-1) 4 none).stopCaptureRuns = 0 ∧
    (setstripe_run 0 (fun _ => "") 0 (-1) 4 none).stderrAtExit = FdTarget.pipeWrite :=
  ⟨rfl, rfl⟩

/- ------------------------------------------------------------------
Error translation of the remaining wrappers (context for C6: these three
wrappers do follow the claimed convention)
------------------------------------------------------------------ -/

/-- Wrapper `path2fid` translates a negative native code into
`IOError(-err, strerror(-err))` and a non-negative one into the decoded
`Fid`. -/
theorem path2fid_translates (strerror : Int → String) (err : Int) (lufid : lu_fid) :
    (err < 0 → path2fid strerror err lufid = .error (.ioError (-err) (strerror (-err)))) ∧
    (0 ≤ err → path2fid strerror err lufid =
      .ok { seq := lufid.f_seq, oid := lufid.f_oid, ver := lufid.f_ver }) := by
  constructor
  · intro h
    rw [path2fid, if_pos h]
  · intro h
    rw [path2fid, if_neg (by omega)]

/-- Wrapper `get_hsm_state` translates a negative native code into
`IOError(-err, strerror(-err))` and a non-negative one into the decoded
`HSM_state`. -/
theorem get_hsm_state_translates (strerror : Int → String) (err : Int)
    (hus : hsm_user_state) :
    (err < 0 → get_hsm_state strerror err hus =
      .error (.ioError (-err) (strerror (-err)))) ∧
    (0 ≤ err → get_hsm_state strerror err hus = .ok (HSM_state_mk hus)) := by
  constructor
  · intro h
    rw [get_hsm_state, if_pos h]
  · intro h
    rw [get_hsm_state, if_neg (by omega)]

/-- Wrapper `set_hsm_state` translates a negative native code into
`IOError(-err, strerror(-err))` and a non-negative one into success. -/
theorem set_hsm_state_translates (strerror : Int → String)
    (setmask clearmask : List String) (archive_id : Nat) (err : Int) :
    (err < 0 → set_hsm_state strerror setmask clearmask archive_id err =
      .error (.ioError (-err) (strerror (-err)))) ∧
    (0 ≤ err → set_hsm_state strerror setmask clearmask archive_id err = .ok ()) := by
  constructor
  · intro h
    rw [set_hsm_state, if_pos h]
  · intro h
    rw [set_hsm_state, if_neg (by omega)]

/- ------------------------------------------------------------------
C8: isstriped predicate
------------------------------------------------------------------ -/

/-- C8: `isstriped` returns true exactly when the stripe count exceeds 1 or
equals -1, and in particular returns false when the stripe count is 0. -/
theorem isstriped_iff (s : stripeObj) :
    (s.isstriped = true ↔ (1 < s.stripecount ∨ s.stripecount = -1)) ∧
    (s.stripecount = 0 → s.isstriped = false) := by
  constructor
  · rw [stripeObj.isstriped]
    by_cases h : 1 < s.stripecount ∨ s.stripecount = -1
    · simp [h]
    · simp [h]
  · intro h
    simp [stripeObj.isstriped, h]

/-- C8 witness: a layout with stripe count 0 is reported as not striped. -/
theorem isstriped_iff_witness :
    stripeObj.isstriped ⟨0, 0, -1, []⟩ = false :=
  (isstriped_iff ⟨0, 0, -1, []⟩).2 rfl

/- ------------------------------------------------------------------
C9: HSM textual summary
------------------------------------------------------------------ -/

/-- C9: for every decoded HSM state, the textual summary is
"No HSM state" exactly when the decoded flag list is empty or has exactly
one element; with more than one decoded flag the summary lists the archive
id and the flag names. -/
theorem hsm_str_spec (hus : hsm_user_state) :
    (HSM_state_str (HSM_state_mk hus) = "No HSM state" ↔
      (HSM_state_mk hus).states.length ≤ 1) ∧
    (1 < (HSM_state_mk hus).states.length →
      HSM_state_str (HSM_state_mk hus) =
        "Archive id:" ++ toString hus.hus_archive_id ++ "\nStates: " ++
          String.intercalate " " (HSM_state_mk hus).states) := by
  constructor
  · constructor
    · intro h
      by_contra hlen
      push_neg at hlen
      rw [HSM_state_str, if_pos hlen] at h
      exact archive_str_ne _ _ _ h
    · intro h
      rw [HSM_state_str, if_neg (by omega)]
  · intro h
    rw [HSM_state_str, if_pos h]
    rfl

/-- C9 witness: the native state `9 = EXISTS|ARCHIVED` with archive id 3
decodes to two flags and is summarised with the archive id and both
names. -/
theorem hsm_str_spec_witness :
    HSM_state_str (HSM_state_mk { hus_states := 9, hus_archive_id := 3 }) =
      "Archive id:" ++ toString 3 ++ "\nStates: " ++
        String.intercalate " "
          (HSM_state_mk { hus_states := 9, hus_archive_id := 3 }).states :=
  (hsm_str_spec { hus_states := 9, hus_archive_id := 3 }).2 (by decide)

/- ------------------------------------------------------------------
C10: freshly constructed stripe object
------------------------------------------------------------------ -/

/-- C10: a freshly constructed `stripeObj` carries `stripecount = -1`,
`stripesize = 0`, `stripeoffset = -1` and no placements, and `isstriped`
reports it as striped (true), because `-1` means "filesystem default". -/
theorem stripeObj_init_defaults :
    stripeObj_init.stripecount = -1 ∧
    stripeObj_init.stripesize = 0 ∧
    stripeObj_init.stripeoffset = -1 ∧
    stripeObj_init.ostobjects = [] ∧
    stripeObj_init.isstriped = true := by
  refine ⟨rfl, rfl, rfl, rfl, ?_⟩
  decide
